import Mathlib

/-!
Verification of the `double-int` crate (`src/lib.rs`).

The crate defines `DoubleInt`, a wrapper around an `i64` restricted to the
interval of integers exactly representable in an IEEE 754 double
(`[-(2^53)+1, 2^53-1]`).  We embed the value type, its constant bounds, the
`From` conversions from narrow integer types, the `PartialEq` implementations
against every fixed-width integer type, and the serde `Serialize` /
`Deserialize` implementations, as pure Lean functions.  Rust machine integers
are embedded as `Int` (signed) and `Nat` (unsigned) with their ranges stated
as hypotheses where relevant, and the wrapping `as i64` cast is modelled
explicitly.
-/

/-- `pub struct DoubleInt(i64);` — the field is the internal `i64` value. -/
structure DoubleInt where
  val : Int
  deriving DecidableEq

namespace DoubleInt

/-- `const MIN: i128 = -(2_i128.pow(53)) + 1;` -/
def MIN : Int := -(2 ^ 53) + 1

/-- `const MAX: i128 = 2_i128.pow(53) - 1;` -/
def MAX : Int := 2 ^ 53 - 1

/-- `const UMAX: u128 = 2_u128.pow(53) - 1;` -/
def UMAX : Nat := 2 ^ 53 - 1

/-- `pub const fn as_i64(self) -> i64 { self.0 }` -/
def as_i64 (d : DoubleInt) : Int := d.val

end DoubleInt

/-- Rust's `as i64` cast applied to a wider integer value (`u64`, `u128` or
`i128`): truncate to the low 64 bits and reinterpret as two's complement. -/
def asI64wrap (n : Int) : Int := (n + 2 ^ 63) % 2 ^ 64 - 2 ^ 63

namespace DoubleInt

/-- `from_impl!(u8)`: `Self(val as i64)` (zero-extension, exact). -/
def fromU8 (n : Nat) : DoubleInt := ⟨(n : Int)⟩

/-- `from_impl!(u16)`: `Self(val as i64)` (zero-extension, exact). -/
def fromU16 (n : Nat) : DoubleInt := ⟨(n : Int)⟩

/-- `from_impl!(u32)`: `Self(val as i64)` (zero-extension, exact). -/
def fromU32 (n : Nat) : DoubleInt := ⟨(n : Int)⟩

/-- `from_impl!(i8)`: `Self(val as i64)` (sign-extension, exact). -/
def fromI8 (n : Int) : DoubleInt := ⟨n⟩

/-- `from_impl!(i16)`: `Self(val as i64)` (sign-extension, exact). -/
def fromI16 (n : Int) : DoubleInt := ⟨n⟩

/-- `from_impl!(i32)`: `Self(val as i64)` (sign-extension, exact). -/
def fromI32 (n : Int) : DoubleInt := ⟨n⟩

/-- `derive(Default)`: the `i64` field defaults to `0`. -/
def defaultValue : DoubleInt := ⟨0⟩

/-- `infallible_eq_impls!(u8)`: `self.0 == *val as i64` (exact widening). -/
def eqU8 (d : DoubleInt) (v : Nat) : Bool := d.val == (v : Int)

/-- `infallible_eq_impls!(u16)`: `self.0 == *val as i64` (exact widening). -/
def eqU16 (d : DoubleInt) (v : Nat) : Bool := d.val == (v : Int)

/-- `infallible_eq_impls!(u32)`: `self.0 == *val as i64` (exact widening). -/
def eqU32 (d : DoubleInt) (v : Nat) : Bool := d.val == (v : Int)

/-- `infallible_eq_impls!(i8)`: `self.0 == *val as i64` (exact widening). -/
def eqI8 (d : DoubleInt) (v : Int) : Bool := d.val == v

/-- `infallible_eq_impls!(i16)`: `self.0 == *val as i64` (exact widening). -/
def eqI16 (d : DoubleInt) (v : Int) : Bool := d.val == v

/-- `infallible_eq_impls!(i32)`: `self.0 == *val as i64` (exact widening). -/
def eqI32 (d : DoubleInt) (v : Int) : Bool := d.val == v

/-- `impl PartialEq<u64> for DoubleInt`:
`match *val as u128 { DoubleInt::UMAX.. => false, _ => self.0 == *val as i64 }`.
The range pattern `UMAX..` matches every value greater than OR EQUAL to
`UMAX`; `*val as u128` is an exact zero-extension. -/
def eqU64 (d : DoubleInt) (v : Nat) : Bool :=
  if DoubleInt.UMAX ≤ v then false else d.val == asI64wrap (v : Int)

/-- `impl PartialEq<u128> for DoubleInt`:
`match val { DoubleInt::UMAX.. => false, _ => self.0 == *val as i64 }`. -/
def eqU128 (d : DoubleInt) (v : Nat) : Bool :=
  if DoubleInt.UMAX ≤ v then false else d.val == asI64wrap (v : Int)

/-- `impl PartialEq<i64> for DoubleInt`: `self.0 == *val`. -/
def eqI64 (d : DoubleInt) (v : Int) : Bool := d.val == v

/-- `impl PartialEq<i128> for DoubleInt`:
`match val { DoubleInt::MAX.. => false, _ => self.0 == *val as i64 }`.
The pattern `MAX..` matches every `i128` greater than or equal to `MAX`;
there is no guard against values below `i64::MIN`, so the `as i64` cast in
the fallthrough arm can wrap. -/
def eqI128 (d : DoubleInt) (v : Int) : Bool :=
  if DoubleInt.MAX ≤ v then false else d.val == asI64wrap v

/-- `derive(PartialEq, Eq)` on `DoubleInt(i64)`: compare the single field. -/
def doubleIntEq (a b : DoubleInt) : Bool := a.val == b.val

/-- The type invariant stated in the crate's design: the stored value lies in
`[MIN, MAX]`. -/
def inRange (d : DoubleInt) : Prop := DoubleInt.MIN ≤ d.val ∧ d.val ≤ DoubleInt.MAX

end DoubleInt

/-- The serde error outcomes relevant to `DoubleInt` deserialization:
`invalidValue` is `serde::de::Error::invalid_value(Unexpected::Signed(val), msg)`
(the spec's OutOfRange), and `typeMismatch` stands for the error the underlying
`i64` decode step reports for a non-integer input (the spec's TypeMismatch). -/
inductive DeError where
  | invalidValue (unexpected : Int) (expected : String)
  | typeMismatch (description : String)
  deriving DecidableEq

/-- `impl Serialize for DoubleInt`: `serializer.serialize_i64(self.0)` — the
emitted wire value is the internal `i64` unchanged. -/
def doubleIntSerialize (d : DoubleInt) : Int := d.val

/-- `impl Deserialize for DoubleInt`, as a function of the result of the
underlying `i64::deserialize` step: an `Err` is propagated unchanged; an `Ok`
value is range-checked against `MIN` and `MAX` (widened to `i128`, which is
exact) and then wrapped in `DoubleInt`. -/
def doubleIntDeserialize (r : Except DeError Int) : Except DeError DoubleInt :=
  match r with
  | .error err => .error err
  | .ok val =>
    if val < DoubleInt.MIN then
      .error (.invalidValue val "integer larger than -9007199254740991 / -(2^53) + 1")
    else if DoubleInt.MAX < val then
      .error (.invalidValue val "integer smaller than 9007199254740991 / (2^53) - 1")
    else
      .ok ⟨val⟩

/-- Modelled from the spec: the shapes of encoded input the deserialization
boundary may see — an integer token, a floating-point token with a fractional
part (e.g. `4.2` is `fractional 4 2`), a string, or a boolean.  The underlying
`i64` decoder is serde's, outside this crate's source. -/
inductive Encoded where
  | int (n : Int)
  | fractional (whole : Int) (fracDigits : Nat)
  | str (s : String)
  | boolean (b : Bool)
  deriving DecidableEq

/-- Modelled from the spec: the underlying `i64::deserialize` step called first
by the crate's `Deserialize` impl.  Any input that is not representable as a
64-bit signed integer fails with a TypeMismatch error at this boundary. -/
def i64Deserialize (e : Encoded) : Except DeError Int :=
  match e with
  | .int n =>
    if -(2 ^ 63) ≤ n ∧ n ≤ 2 ^ 63 - 1 then .ok n
    else .error (.typeMismatch "integer not representable as a 64-bit signed integer")
  | .fractional _ _ => .error (.typeMismatch "floating-point value with a fractional part")
  | .str _ => .error (.typeMismatch "string")
  | .boolean _ => .error (.typeMismatch "boolean")

theorem DoubleInt.MIN_eq : DoubleInt.MIN = -9007199254740991 := by decide

theorem DoubleInt.MAX_eq : DoubleInt.MAX = 9007199254740991 := by decide

/-- C1: the code, not the claim.  A `DoubleInt` holding `2^53 - 1` is reachable
(deserializing `9007199254740991` succeeds), yet comparing it against the
`u64` or `u128` value `9007199254740991` evaluates to `false`, because the
match pattern `UMAX..` also rejects a target exactly equal to `UMAX`; the
`i64` comparison at the same value is `true`. -/
theorem c1_u64_umax_boundary_eval :
    doubleIntDeserialize (Except.ok 9007199254740991) =
      Except.ok (DoubleInt.mk 9007199254740991) ∧
    DoubleInt.eqU64 (DoubleInt.mk 9007199254740991) 9007199254740991 = false ∧
    DoubleInt.eqU128 (DoubleInt.mk 9007199254740991) 9007199254740991 = false ∧
    DoubleInt.eqI64 (DoubleInt.mk 9007199254740991) 9007199254740991 = true :=
  ⟨rfl, rfl, rfl, rfl⟩

/-- C2: the code, not the claim.  The `i128` comparison returns `true` for
`DoubleInt(0) == -(2^64)` (no lower-bound guard, so `-(2^64) as i64` wraps to
`0`), and `false` for `DoubleInt(2^53-1) == 2^53-1` (the pattern `MAX..` also
rejects a target exactly equal to `MAX`), both contradicting mathematical
equality; the `DoubleInt` values involved are reachable. -/
theorem c2_i128_eq_eval :
    DoubleInt.eqI128 (DoubleInt.mk 0) (-(2 ^ 64)) = true ∧
    DoubleInt.eqI128 (DoubleInt.mk 9007199254740991) 9007199254740991 = false ∧
    doubleIntDeserialize (Except.ok 0) = Except.ok (DoubleInt.mk 0) :=
  ⟨rfl, rfl, rfl⟩

theorem DoubleInt.mk_val (d : DoubleInt) : DoubleInt.mk d.val = d := rfl

theorem DoubleInt.inRange_mk (v : Int) (h1 : -9007199254740991 ≤ v)
    (h2 : v ≤ 9007199254740991) : DoubleInt.inRange (DoubleInt.mk v) := by
  unfold DoubleInt.inRange
  rw [DoubleInt.MIN_eq, DoubleInt.MAX_eq]
  exact ⟨h1, h2⟩

/-- C3: fallible construction (deserialization) from a 64-bit signed integer
`val` succeeds exactly when `MIN ≤ val ≤ MAX`; on success the wrapped value
(and hence `as_i64`) is exactly `val`, and on failure the error carries the
offending value. -/
theorem c3_deserialize_range (val : Int)
    (_hlo : -(2 ^ 63) ≤ val) (_hhi : val ≤ 2 ^ 63 - 1) :
    ((∃ d, doubleIntDeserialize (Except.ok val) = Except.ok d) ↔
      DoubleInt.MIN ≤ val ∧ val ≤ DoubleInt.MAX) ∧
    (DoubleInt.MIN ≤ val ∧ val ≤ DoubleInt.MAX →
      doubleIntDeserialize (Except.ok val) = Except.ok (DoubleInt.mk val) ∧
      (DoubleInt.mk val).as_i64 = val) ∧
    ((val < DoubleInt.MIN ∨ DoubleInt.MAX < val) →
      ∃ msg, doubleIntDeserialize (Except.ok val) =
        Except.error (DeError.invalidValue val msg)) := by
  have hminmax : DoubleInt.MIN ≤ DoubleInt.MAX := by decide
  refine ⟨⟨?_, ?_⟩, ?_, ?_⟩
  · rintro ⟨d, hd⟩
    by_cases h1 : val < DoubleInt.MIN
    · simp [doubleIntDeserialize, h1] at hd
    · by_cases h2 : DoubleInt.MAX < val
      · simp [doubleIntDeserialize, h1, h2] at hd
      · exact ⟨not_lt.mp h1, not_lt.mp h2⟩
  · rintro ⟨h1, h2⟩
    exact ⟨DoubleInt.mk val, by simp [doubleIntDeserialize, not_lt.mpr h1, not_lt.mpr h2]⟩
  · rintro ⟨h1, h2⟩
    refine ⟨by simp [doubleIntDeserialize, not_lt.mpr h1, not_lt.mpr h2], rfl⟩
  · rintro (h | h)
    · exact ⟨"integer larger than -9007199254740991 / -(2^53) + 1",
        by simp [doubleIntDeserialize, h]⟩
    · have h1 : ¬ val < DoubleInt.MIN := not_lt.mpr ((hminmax.trans h.le))
      exact ⟨"integer smaller than 9007199254740991 / (2^53) - 1",
        by simp [doubleIntDeserialize, h1, h]⟩

theorem c3_deserialize_range_witness :
    doubleIntDeserialize (Except.ok 42) = Except.ok (DoubleInt.mk 42) ∧
    (DoubleInt.mk 42).as_i64 = 42 :=
  (c3_deserialize_range 42 (by decide) (by decide)).2.1 (by decide)

/-- C4: for every `DoubleInt` whose stored value is in `[MIN, MAX]`,
serializing (which emits the internal value as a plain signed 64-bit integer)
and then deserializing the emitted integer succeeds and returns the original
`DoubleInt`. -/
theorem c4_roundtrip (d : DoubleInt) (h : DoubleInt.inRange d) :
    doubleIntDeserialize (i64Deserialize (Encoded.int (doubleIntSerialize d))) =
      Except.ok d := by
  obtain ⟨h1, h2⟩ := h
  have e1 : (-(2 ^ 63) : Int) ≤ DoubleInt.MIN := by decide
  have e2 : DoubleInt.MAX ≤ (2 ^ 63 - 1 : Int) := by decide
  have hr1 : -(2 ^ 63) ≤ d.val := e1.trans h1
  have hr2 : d.val ≤ 2 ^ 63 - 1 := h2.trans e2
  simp only [doubleIntSerialize, i64Deserialize]
  rw [if_pos ⟨hr1, hr2⟩]
  simp [doubleIntDeserialize, not_lt.mpr h1, not_lt.mpr h2]

theorem c4_roundtrip_witness :
    doubleIntDeserialize (i64Deserialize (Encoded.int (doubleIntSerialize
      (DoubleInt.mk 42)))) = Except.ok (DoubleInt.mk 42) :=
  c4_roundtrip (DoubleInt.mk 42) (DoubleInt.inRange_mk 42 (by decide) (by decide))

/-- C5: every `DoubleInt` produced through the public interface — the six
infallible `From` conversions from 8/16/32-bit integers, successful
deserialization, and `Default` — satisfies `MIN ≤ val ≤ MAX`, and the
remaining operations (`as_i64`, serialization) read the stored value without
changing it. -/
theorem c5_invariant :
    (∀ n : Nat, n < 256 → DoubleInt.inRange (DoubleInt.fromU8 n)) ∧
    (∀ n : Nat, n < 65536 → DoubleInt.inRange (DoubleInt.fromU16 n)) ∧
    (∀ n : Nat, n < 4294967296 → DoubleInt.inRange (DoubleInt.fromU32 n)) ∧
    (∀ n : Int, -128 ≤ n → n < 128 → DoubleInt.inRange (DoubleInt.fromI8 n)) ∧
    (∀ n : Int, -32768 ≤ n → n < 32768 → DoubleInt.inRange (DoubleInt.fromI16 n)) ∧
    (∀ n : Int, -2147483648 ≤ n → n < 2147483648 →
      DoubleInt.inRange (DoubleInt.fromI32 n)) ∧
    (∀ r d, doubleIntDeserialize r = Except.ok d → DoubleInt.inRange d) ∧
    DoubleInt.inRange DoubleInt.defaultValue ∧
    (∀ d : DoubleInt, d.as_i64 = d.val ∧ doubleIntSerialize d = d.val) := by
  refine ⟨?_, ?_, ?_, ?_, ?_, ?_, ?_, ?_, ?_⟩
  · intro n hn
    exact DoubleInt.inRange_mk _ (by omega) (by omega)
  · intro n hn
    exact DoubleInt.inRange_mk _ (by omega) (by omega)
  · intro n hn
    exact DoubleInt.inRange_mk _ (by omega) (by omega)
  · intro n hn1 hn2
    exact DoubleInt.inRange_mk _ (by omega) (by omega)
  · intro n hn1 hn2
    exact DoubleInt.inRange_mk _ (by omega) (by omega)
  · intro n hn1 hn2
    exact DoubleInt.inRange_mk _ (by omega) (by omega)
  · intro r d hd
    match r with
    | .error e => simp [doubleIntDeserialize] at hd
    | .ok v =>
      by_cases h1 : v < DoubleInt.MIN
      · simp [doubleIntDeserialize, h1] at hd
      · by_cases h2 : DoubleInt.MAX < v
        · simp [doubleIntDeserialize, h1, h2] at hd
        · simp [doubleIntDeserialize, h1, h2] at hd
          rw [← hd]
          exact ⟨not_lt.mp h1, not_lt.mp h2⟩
  · exact DoubleInt.inRange_mk 0 (by decide) (by decide)
  · exact fun d => ⟨rfl, rfl⟩

theorem c5_invariant_witness :
    DoubleInt.inRange (DoubleInt.fromU8 200) ∧
    DoubleInt.inRange (DoubleInt.fromI32 (-2000000)) ∧
    DoubleInt.inRange (DoubleInt.mk 42) :=
  ⟨c5_invariant.1 200 (by decide),
   c5_invariant.2.2.2.2.2.1 (-2000000) (by decide) (by decide),
   c5_invariant.2.2.2.2.2.2.1 (Except.ok 42) (DoubleInt.mk 42) rfl⟩

/-- C6: infallible construction from every 8/16/32-bit signed or unsigned
value `n` is total (defined with no validation) and the resulting `DoubleInt`
compares equal to `n` under the corresponding cross-type equality. -/
theorem c6_from_narrow_eq :
    (∀ n : Nat, n < 256 → DoubleInt.eqU8 (DoubleInt.fromU8 n) n = true) ∧
    (∀ n : Nat, n < 65536 → DoubleInt.eqU16 (DoubleInt.fromU16 n) n = true) ∧
    (∀ n : Nat, n < 4294967296 → DoubleInt.eqU32 (DoubleInt.fromU32 n) n = true) ∧
    (∀ n : Int, -128 ≤ n → n < 128 → DoubleInt.eqI8 (DoubleInt.fromI8 n) n = true) ∧
    (∀ n : Int, -32768 ≤ n → n < 32768 →
      DoubleInt.eqI16 (DoubleInt.fromI16 n) n = true) ∧
    (∀ n : Int, -2147483648 ≤ n → n < 2147483648 →
      DoubleInt.eqI32 (DoubleInt.fromI32 n) n = true) := by
  refine ⟨?_, ?_, ?_, ?_, ?_, ?_⟩
  · intro n _
    simp [DoubleInt.eqU8, DoubleInt.fromU8]
  · intro n _
    simp [DoubleInt.eqU16, DoubleInt.fromU16]
  · intro n _
    simp [DoubleInt.eqU32, DoubleInt.fromU32]
  · intro n _ _
    simp [DoubleInt.eqI8, DoubleInt.fromI8]
  · intro n _ _
    simp [DoubleInt.eqI16, DoubleInt.fromI16]
  · intro n _ _
    simp [DoubleInt.eqI32, DoubleInt.fromI32]

theorem c6_from_narrow_eq_witness :
    DoubleInt.eqU8 (DoubleInt.fromU8 5) 5 = true ∧
    DoubleInt.eqI8 (DoubleInt.fromI8 (-5)) (-5) = true :=
  ⟨c6_from_narrow_eq.1 5 (by decide),
   c6_from_narrow_eq.2.2.2.1 (-5) (by decide) (by decide)⟩

/-- C8 counterexample: the claim's expected-range message omits the spaces the
code actually emits.  Deserializing `MIN - 1 = -9007199254740992` does NOT
produce an error whose message is the claimed string
`"integer larger than -9007199254740991 / -(2^53)+1"`; the code's message is
`"integer larger than -9007199254740991 / -(2^53) + 1"`. -/
theorem c8_message_counterexample :
    doubleIntDeserialize (Except.ok (-9007199254740992)) ≠
      Except.error (DeError.invalidValue (-9007199254740992)
        "integer larger than -9007199254740991 / -(2^53)+1") := by
  have h1 : doubleIntDeserialize (Except.ok (-9007199254740992)) =
      Except.error (DeError.invalidValue (-9007199254740992)
        "integer larger than -9007199254740991 / -(2^53) + 1") := rfl
  rw [h1]
  intro h
  simp only [Except.error.injEq, DeError.invalidValue.injEq] at h
  exact absurd h.2 (by decide)

/-- C8 (amended): when fallible construction fails, the expected-range message
is exactly `"integer larger than -9007199254740991 / -(2^53) + 1"` for an
input below `MIN` and exactly
`"integer smaller than 9007199254740991 / (2^53) - 1"` for an input above
`MAX`, and in both cases the error carries the unexpected input value. -/
theorem c8_error_messages (val : Int) :
    (val < DoubleInt.MIN →
      doubleIntDeserialize (Except.ok val) =
        Except.error (DeError.invalidValue val
          "integer larger than -9007199254740991 / -(2^53) + 1")) ∧
    (DoubleInt.MAX < val →
      doubleIntDeserialize (Except.ok val) =
        Except.error (DeError.invalidValue val
          "integer smaller than 9007199254740991 / (2^53) - 1")) := by
  have hminmax : DoubleInt.MIN ≤ DoubleInt.MAX := by decide
  constructor
  · intro h
    simp [doubleIntDeserialize, h]
  · intro h
    have h1 : ¬ val < DoubleInt.MIN := not_lt.mpr (hminmax.trans h.le)
    simp [doubleIntDeserialize, h1, h]

theorem c8_error_messages_witness :
    doubleIntDeserialize (Except.ok (-9007199254740993)) =
      Except.error (DeError.invalidValue (-9007199254740993)
        "integer larger than -9007199254740991 / -(2^53) + 1") ∧
    doubleIntDeserialize (Except.ok 9007199254740992) =
      Except.error (DeError.invalidValue 9007199254740992
        "integer smaller than 9007199254740991 / (2^53) - 1") :=
  ⟨(c8_error_messages (-9007199254740993)).1 (by decide),
   (c8_error_messages 9007199254740992).2 (by decide)⟩

/-- C9: any encoded input on which the underlying `i64` decode step does not
produce an integer fails with that step's TypeMismatch error, which the
crate's `Deserialize` impl propagates unchanged — range validation is never
reached and no `DoubleInt` is constructed. -/
theorem c9_type_mismatch_propagates (e : Encoded)
    (h : ∀ n : Int, i64Deserialize e ≠ Except.ok n) :
    ∃ s, i64Deserialize e = Except.error (DeError.typeMismatch s) ∧
      doubleIntDeserialize (i64Deserialize e) =
        Except.error (DeError.typeMismatch s) := by
  match e with
  | .fractional w f =>
      exact ⟨"floating-point value with a fractional part", rfl, rfl⟩
  | .str s => exact ⟨"string", rfl, rfl⟩
  | .boolean b => exact ⟨"boolean", rfl, rfl⟩
  | .int n =>
      by_cases hr : -(2 ^ 63) ≤ n ∧ n ≤ 2 ^ 63 - 1
      · have hok : i64Deserialize (Encoded.int n) = Except.ok n := by
          simp only [i64Deserialize]
          rw [if_pos hr]
        exact absurd hok (h n)
      · have herr : i64Deserialize (Encoded.int n) = Except.error
            (DeError.typeMismatch
              "integer not representable as a 64-bit signed integer") := by
          simp only [i64Deserialize]
          rw [if_neg hr]
        refine ⟨"integer not representable as a 64-bit signed integer", herr, ?_⟩
        rw [herr]
        rfl

theorem c9_type_mismatch_propagates_witness :
    ∃ s, i64Deserialize (Encoded.fractional 4 2) =
        Except.error (DeError.typeMismatch s) ∧
      doubleIntDeserialize (i64Deserialize (Encoded.fractional 4 2)) =
        Except.error (DeError.typeMismatch s) :=
  c9_type_mismatch_propagates (Encoded.fractional 4 2)
    (fun _ hn => Except.noConfusion hn)

/-- C10: the derived equality on `DoubleInt` holds exactly when `as_i64`
returns the same value on both sides, and it is reflexive, symmetric and
transitive. -/
theorem c10_derived_eq :
    (∀ a b : DoubleInt, DoubleInt.doubleIntEq a b = true ↔ a.as_i64 = b.as_i64) ∧
    (∀ a : DoubleInt, DoubleInt.doubleIntEq a a = true) ∧
    (∀ a b : DoubleInt, DoubleInt.doubleIntEq a b = DoubleInt.doubleIntEq b a) ∧
    (∀ a b c : DoubleInt, DoubleInt.doubleIntEq a b = true →
      DoubleInt.doubleIntEq b c = true → DoubleInt.doubleIntEq a c = true) := by
  have hiff : ∀ a b : DoubleInt, DoubleInt.doubleIntEq a b = true ↔ a.val = b.val := by
    intro a b
    simp [DoubleInt.doubleIntEq]
  refine ⟨?_, ?_, ?_, ?_⟩
  · intro a b
    exact hiff a b
  · intro a
    exact (hiff a a).mpr rfl
  · intro a b
    by_cases h : a.val = b.val
    · rw [(hiff a b).mpr h, (hiff b a).mpr h.symm]
    · have h1 : DoubleInt.doubleIntEq a b = false :=
        Bool.eq_false_iff.mpr (fun hc => h ((hiff a b).mp hc))
      have h2 : DoubleInt.doubleIntEq b a = false :=
        Bool.eq_false_iff.mpr (fun hc => h (((hiff b a).mp hc).symm))
      rw [h1, h2]
  · intro a b c hab hbc
    exact (hiff a c).mpr (((hiff a b).mp hab).trans ((hiff b c).mp hbc))

theorem c10_derived_eq_witness :
    DoubleInt.doubleIntEq (DoubleInt.mk 1) (DoubleInt.mk 1) = true :=
  c10_derived_eq.2.2.2 (DoubleInt.mk 1) (DoubleInt.mk 1) (DoubleInt.mk 1) rfl rfl
